import Mathlib

/-!
Verification of the core of the `agents` repository: the CSV→JSON tool pair
(`src/csv_json_converter/tools.py`), the simple agent and its reduced tool
variants (`src/csv_json_converter/agent.py`), and the prompt-resolution chain
(`src/promote_loader.py`).

The Python tools parse CSV via `csv.DictReader(io.StringIO(csv_content))`.
We model the `_csv` reader's character-level state machine for the default
dialect (delimiter `,`, quotechar `"`, doublequote, no escapechar,
non-strict), over an `io.StringIO` whose default `newline='\n'` splits lines
at `\n` only.  This includes the reader's one raising path on string input:
a `\r` or `\n` ending a record mid-line followed by a further character
raises `_csv.Error` ("new-line character seen in unquoted field ..."), which
the tools' `except` branches turn into failure dicts.  A record is an ordered
association list from column name to cell, where a cell is `some s` for a
string value and `none` for Python's `None` (`DictReader`'s `restval` padding
for short rows); record construction follows `dict(zip(...))` semantics, so
duplicate fieldnames collapse to one entry (first-occurrence position, last
value wins).  Not modelled, as no claim depends on them: extra cells beyond
the header (`DictReader`'s `restkey`), the 128KB `field_size_limit`, and the
NUL-byte rejection of Python < 3.11.
-/

/-- A parsed CSV record: ordered column-name/cell pairs.  A cell is `some s`
for a string value, `none` for Python `None` (the `restval` padding). -/
abbrev CsvRecord := List (String × Option String)

/-- The `_csv` parser states exercised by the default dialect (escape states
are unreachable with `escapechar=None`). -/
inductive CsvState
  | startRecord
  | startField
  | inField
  | inQuotedField
  | quoteInQuotedField
  | eatCrnl
deriving DecidableEq, Repr

/-- The message of the `_csv.Error` raised when a record ends (bare `\r` or
`\n`) mid-line and more characters follow. -/
def csvErrMsg : String :=
  "new-line character seen in unquoted field - do you need to open the file in universal-newline mode?"

/-- The reader's token stream: the characters of the input, with an
end-of-line sentinel (`none`) after each `\n` (the chunks `io.StringIO`
yields are `\n`-terminated) and after a final unterminated chunk. -/
def csvTokens (s : String) : List (Option Char) :=
  (s.data.map fun c => if c = Char.ofNat 10 then [some c, none] else [some c]).flatten ++
  (match s.data.getLast? with
   | none => []
   | some c => if c = Char.ofNat 10 then [] else [none])

/-- The `_csv` reader loop: one step per token, carrying the state, the
current field's characters, the current record's saved fields, and the
emitted records.  Transitions follow `Modules/_csv.c` for the default
dialect; at end of input a pending field (or an open quoted field) is saved
and the record emitted, as the non-strict reader does. -/
def csvRun : List (Option Char) → CsvState → List Char → List String →
    List (List String) → Except String (List (List String))
  | [], st, field, fields, recs =>
    match st with
    | .startRecord => .ok recs
    | .inQuotedField => .ok (recs ++ [fields ++ [String.mk field]])
    | _ =>
      if field = [] then .ok recs
      else .ok (recs ++ [fields ++ [String.mk field]])
  | tok :: rest, .startRecord, _, fields, recs =>
    match tok with
    | none => csvRun rest .startRecord [] [] (recs ++ [fields])
    | some c =>
      if c = Char.ofNat 10 ∨ c = Char.ofNat 13 then csvRun rest .eatCrnl [] fields recs
      else if c = Char.ofNat 34 then csvRun rest .inQuotedField [] fields recs
      else if c = Char.ofNat 44 then csvRun rest .startField [] (fields ++ [""]) recs
      else csvRun rest .inField [c] fields recs
  | tok :: rest, .startField, _, fields, recs =>
    match tok with
    | none => csvRun rest .startRecord [] [] (recs ++ [fields ++ [""]])
    | some c =>
      if c = Char.ofNat 10 ∨ c = Char.ofNat 13 then
        csvRun rest .eatCrnl [] (fields ++ [""]) recs
      else if c = Char.ofNat 34 then csvRun rest .inQuotedField [] fields recs
      else if c = Char.ofNat 44 then csvRun rest .startField [] (fields ++ [""]) recs
      else csvRun rest .inField [c] fields recs
  | tok :: rest, .inField, field, fields, recs =>
    match tok with
    | none => csvRun rest .startRecord [] [] (recs ++ [fields ++ [String.mk field]])
    | some c =>
      if c = Char.ofNat 10 ∨ c = Char.ofNat 13 then
        csvRun rest .eatCrnl [] (fields ++ [String.mk field]) recs
      else if c = Char.ofNat 44 then
        csvRun rest .startField [] (fields ++ [String.mk field]) recs
      else csvRun rest .inField (field ++ [c]) fields recs
  | tok :: rest, .inQuotedField, field, fields, recs =>
    match tok with
    | none => csvRun rest .inQuotedField field fields recs
    | some c =>
      if c = Char.ofNat 34 then csvRun rest .quoteInQuotedField field fields recs
      else csvRun rest .inQuotedField (field ++ [c]) fields recs
  | tok :: rest, .quoteInQuotedField, field, fields, recs =>
    match tok with
    | none => csvRun rest .startRecord [] [] (recs ++ [fields ++ [String.mk field]])
    | some c =>
      if c = Char.ofNat 34 then csvRun rest .inQuotedField (field ++ [Char.ofNat 34]) fields recs
      else if c = Char.ofNat 44 then
        csvRun rest .startField [] (fields ++ [String.mk field]) recs
      else if c = Char.ofNat 10 ∨ c = Char.ofNat 13 then
        csvRun rest .eatCrnl [] (fields ++ [String.mk field]) recs
      else csvRun rest .inField (field ++ [c]) fields recs
  | tok :: rest, .eatCrnl, field, fields, recs =>
    match tok with
    | none => csvRun rest .startRecord [] [] (recs ++ [fields])
    | some c =>
      if c = Char.ofNat 10 ∨ c = Char.ofNat 13 then csvRun rest .eatCrnl field fields recs
      else .error csvErrMsg

/-- `list(csv.reader(io.StringIO(s)))`: every raw row, or the `_csv.Error`
message. -/
def csvReaderRows (s : String) : Except String (List (List String)) :=
  csvRun (csvTokens s) .startRecord [] [] []

/-- One `d[k] = v` on an ordered dict modelled as an association list:
update in place if the key exists (keys stay unique, first-occurrence
order), else append. -/
def dictInsert (d : CsvRecord) (k : String) (v : Option String) : CsvRecord :=
  if d.any (fun kv => kv.1 == k) then
    d.map (fun kv => if kv.1 == k then (k, v) else kv)
  else d ++ [(k, v)]

/-- Build one `DictReader` record: `dict(zip(fieldnames, row))` (zip
truncates to the shorter list; duplicate fieldnames collapse, last value
wins), then missing trailing cells padded by the `restval` `None`.  Extra
cells beyond the fieldnames (`restkey`) are not modelled. -/
def mkRecord (fns row : List String) : CsvRecord :=
  (fns.drop row.length).foldl (fun d k => dictInsert d k none)
    ((fns.zip row).foldl (fun d kv => dictInsert d kv.1 (some kv.2)) [])

/-- `rows = list(csv.DictReader(io.StringIO(s)))`: fieldnames are the first
raw row (absent rows leave them `None` and yield no records), the data rows
follow with blank rows skipped, each zipped with the fieldnames; a
`_csv.Error` propagates. -/
def csvRows (s : String) : Except String (List CsvRecord) :=
  match csvReaderRows s with
  | .error e => .error e
  | .ok [] => .ok []
  | .ok (hdr :: rest) => .ok ((rest.filter (fun r => r ≠ [])).map (mkRecord hdr))

/-- The records of a successful parse, `[]` when the csv reader raises. -/
def parsedRecords (s : String) : List CsvRecord :=
  match csvRows s with
  | .ok rows => rows
  | .error _ => []

/-- `DictReader.fieldnames`: the first raw row, `none` when the input has no
row at all or the reader raises while producing it. -/
def fieldnamesOf (s : String) : Option (List String) :=
  match csvReaderRows s with
  | .ok (hdr :: _) => some hdr
  | _ => none

/-- Error taxonomy of the spec's Tabular Parser.  `malformedRow` is the
spec's name for a row the csv reader cannot decode (the `_csv.Error`
path). -/
inductive ParseError
  | emptyInput
  | malformedRow
deriving DecidableEq, Repr

/-- A parsed table: the header and the data records. -/
structure Table where
  columns : List String
  records : List CsvRecord
deriving DecidableEq, Repr

/-- Modelled from the spec: the Tabular Parser contract `parse(raw_text) ->
Table` with its `EmptyInputError` and `MalformedRowError`.  The repository
has no standalone parse function; it uses `csv.DictReader`, whose
`fieldnames is None` state on headerless input the spec names
`EmptyInputError` and whose `_csv.Error` the spec names `MalformedRowError`.
The table content is the `DictReader` model above. -/
def parse (s : String) : Except ParseError Table :=
  match csvReaderRows s with
  | .error _ => .error .malformedRow
  | .ok [] => .error .emptyInput
  | .ok (hdr :: rest) => .ok ⟨hdr, (rest.filter (fun r => r ≠ [])).map (mkRecord hdr)⟩

/-! ## JSON values and `json.dumps(·, indent=2)` -/

/-- The JSON values the tools produce: strings, `null` (from `None` cells),
arrays and objects with ordered fields. -/
inductive JsonVal
  | str (s : String)
  | null
  | arr (elems : List JsonVal)
  | obj (fields : List (String × JsonVal))

/-- Hex digit, lowercase, as Python's `\uXXXX` escapes use. -/
def hexDigit (n : Nat) : Char :=
  if n < 10 then Char.ofNat (48 + n) else Char.ofNat (97 + (n - 10))

/-- Four-digit lowercase hex, for `\uXXXX`. -/
def hex4 (n : Nat) : String :=
  String.mk [hexDigit (n / 4096 % 16), hexDigit (n / 256 % 16),
             hexDigit (n / 16 % 16), hexDigit (n % 16)]

/-- Escape one character the way `json.dumps` (default `ensure_ascii=True`)
does: the two-character escapes for quote, backslash and common controls,
`\uXXXX` for other controls and all non-ASCII (surrogate pairs beyond the
BMP), and the character itself otherwise. -/
def escapeChar (c : Char) : String :=
  if c = Char.ofNat 34 then "\\\""
  else if c = Char.ofNat 92 then "\\\\"
  else if c = Char.ofNat 10 then "\\n"
  else if c = Char.ofNat 9 then "\\t"
  else if c = Char.ofNat 13 then "\\r"
  else if c = Char.ofNat 8 then "\\b"
  else if c = Char.ofNat 12 then "\\f"
  else if c.toNat < 32 ∨ c.toNat > 126 then
    if c.toNat < 65536 then "\\u" ++ hex4 c.toNat
    else
      "\\u" ++ hex4 (55296 + (c.toNat - 65536) / 1024) ++
      "\\u" ++ hex4 (56320 + (c.toNat - 65536) % 1024)
  else String.singleton c

/-- A JSON string literal: quoted, characters escaped. -/
def quoteStr (s : String) : String :=
  "\"" ++ String.join (s.data.map escapeChar) ++ "\""

/-- Indentation for nesting depth `d` under `indent=2`. -/
def indentOf (d : Nat) : String := String.join (List.replicate d "  ")

mutual

/-- `json.dumps(v, indent=2)` at nesting depth `d`. -/
def dumpJson : JsonVal → Nat → String
  | .null, _ => "null"
  | .str s, _ => quoteStr s
  | .arr [], _ => "[]"
  | .arr (x :: xs), d =>
      "[\n" ++ dumpArr (x :: xs) (d + 1) ++ "\n" ++ indentOf d ++ "]"
  | .obj [], _ => "\x7b\x7d"
  | .obj (kv :: kvs), d =>
      "\x7b\n" ++ dumpObj (kv :: kvs) (d + 1) ++ "\n" ++ indentOf d ++ "\x7d"

/-- Array elements, one per line, comma-separated. -/
def dumpArr : List JsonVal → Nat → String
  | [], _ => ""
  | [x], d => indentOf d ++ dumpJson x d
  | x :: y :: xs, d => indentOf d ++ dumpJson x d ++ ",\n" ++ dumpArr (y :: xs) d

/-- Object fields, one per line, `"key": value`. -/
def dumpObj : List (String × JsonVal) → Nat → String
  | [], _ => ""
  | [(k, v)], d => indentOf d ++ quoteStr k ++ ": " ++ dumpJson v d
  | (k, v) :: kv :: kvs, d =>
      indentOf d ++ quoteStr k ++ ": " ++ dumpJson v d ++ ",\n" ++ dumpObj (kv :: kvs) d

end

/-- `json.dumps(v, indent=2)`. -/
def dumps (v : JsonVal) : String := dumpJson v 0

/-- One record as a JSON object: same keys, string cells as JSON strings,
`None` cells as `null`, order preserved. -/
def recJson (r : CsvRecord) : JsonVal :=
  .obj (r.map fun kv => (kv.1, match kv.2 with | some s => .str s | none => .null))

/-- `list(rows[0].keys()) if rows else []`. -/
def firstRecordKeys (rows : List CsvRecord) : List String :=
  match rows with
  | r :: _ => r.map Prod.fst
  | [] => []

/-! ## `tools.py`: `csv_to_json` and `analyze_csv`

The Python functions return dicts whose key sets differ between the success
and failure branches.  Each result is modelled as a structure in which a
field of `Option` type is `none` both when the key is absent from the dict
and when it is present with value `None` (the two cases a caller observes
through `dict.get`); `record_count` is present in both branches and is kept
bare. -/

/-- Result of `csv_to_json`.  Success dict: `success, json_output,
json_string, record_count, columns, format`.  Failure dict: `success, error,
json_output=None, record_count=0` (no `columns`, `json_string` or `format`
key). -/
structure ConvResult where
  success : Bool
  error : Option String
  json_output : Option JsonVal
  json_string : Option String
  record_count : Nat
  columns : Option (List String)
  format : Option String

/-- The core of `csv_to_json` after `rows = list(csv.DictReader(...))`
succeeded. -/
def csv_to_json_rows (rows : List CsvRecord) (output_format : String) : ConvResult :=
  if rows = [] then
    { success := false
      error := some "No data found in CSV"
      json_output := none
      json_string := none
      record_count := 0
      columns := none
      format := none }
  else
    let json_data : JsonVal :=
      if output_format = "object" then
        .obj (rows.enum.map fun p => ("row_" ++ toString (p.1 + 1), recJson p.2))
      else
        .arr (rows.map recJson)
    { success := true
      error := none
      json_output := some json_data
      json_string := some (dumps json_data)
      record_count := rows.length
      columns := some (firstRecordKeys rows)
      format := some output_format }

/-- `csv_to_json(csv_content, output_format)` from `tools.py`: the `except`
branch turns a `_csv.Error` into the failure dict with error
`"CSV parsing error: " + str(e)`. -/
def csv_to_json (csv_content : String) (output_format : String) : ConvResult :=
  match csvRows csv_content with
  | .error e =>
    { success := false
      error := some ("CSV parsing error: " ++ e)
      json_output := none
      json_string := none
      record_count := 0
      columns := none
      format := none }
  | .ok rows => csv_to_json_rows rows output_format

/-- Result of `analyze_csv`.  Success dict: `success, total_rows,
total_columns, columns, first_row`.  Failure dict: `success, error`. -/
structure AnalysisResult where
  success : Bool
  error : Option String
  total_rows : Option Nat
  total_columns : Option Nat
  columns : Option (List String)
  first_row : Option CsvRecord
deriving DecidableEq, Repr

/-- The core of `analyze_csv` after parsing succeeded. -/
def analyze_csv_rows (rows : List CsvRecord) : AnalysisResult :=
  if rows = [] then
    { success := false
      error := some "No data found in CSV"
      total_rows := none
      total_columns := none
      columns := none
      first_row := none }
  else
    let columns : List String := firstRecordKeys rows
    { success := true
      error := none
      total_rows := some rows.length
      total_columns := some columns.length
      columns := some columns
      first_row := match rows with | r :: _ => some r | [] => none }

/-- `analyze_csv(csv_content)` from `tools.py`: the `except` branch turns a
`_csv.Error` into `success=False` with error `"CSV analysis error: " + str(e)`. -/
def analyze_csv (csv_content : String) : AnalysisResult :=
  match csvRows csv_content with
  | .error e =>
    { success := false
      error := some ("CSV analysis error: " ++ e)
      total_rows := none
      total_columns := none
      columns := none
      first_row := none }
  | .ok rows => analyze_csv_rows rows

/-! ## `agent.py`: the reduced tool variants and `SimpleCSVAgent`

`csv_to_json_simple` and `analyze_csv_simple` have no empty-rows check: their
success branch runs whenever parsing does not raise, even for zero records.
Their only failure path is the `except` branch, which returns
`{"success": False, "error": str(e)}` — just those two keys, the error
message bare (no `"CSV parsing error: "` prefix). -/

/-- Result of `csv_to_json_simple`.  Success dict: `success, json_output,
json_string, record_count, columns` (no `format` key; `columns` is `[]` on
zero records).  Failure dict: `success, error` only. -/
structure SimpleConvResult where
  success : Bool
  error : Option String
  json_output : Option JsonVal
  json_string : Option String
  record_count : Option Nat
  columns : Option (List String)

/-- `csv_to_json_simple(csv_content)` from `agent.py`. -/
def csv_to_json_simple (csv_content : String) : SimpleConvResult :=
  match csvRows csv_content with
  | .error e =>
    { success := false
      error := some e
      json_output := none
      json_string := none
      record_count := none
      columns := none }
  | .ok rows =>
    { success := true
      error := none
      json_output := some (.arr (rows.map recJson))
      json_string := some (dumps (.arr (rows.map recJson)))
      record_count := some rows.length
      columns := some (firstRecordKeys rows) }

/-- Result of `analyze_csv_simple`.  Success dict: `success, total_rows,
columns` only — no `total_columns` and no `first_row` key exists in this
variant.  Failure dict: `success, error`. -/
structure SimpleAnalysisResult where
  success : Bool
  error : Option String
  total_rows : Option Nat
  columns : Option (List String)
deriving DecidableEq, Repr

/-- `analyze_csv_simple(csv_content)` from `agent.py`. -/
def analyze_csv_simple (csv_content : String) : SimpleAnalysisResult :=
  match csvRows csv_content with
  | .error e =>
    { success := false
      error := some e
      total_rows := none
      columns := none }
  | .ok rows =>
    { success := true
      error := none
      total_rows := some rows.length
      columns := some (firstRecordKeys rows) }

/-! ## `SimpleCSVAgent.__call__`: the query router -/

/-- Python substring membership on character lists: does the needle occur
contiguously in the haystack? -/
def startsWithList : List Char → List Char → Bool
  | [], _ => true
  | _ :: _, [] => false
  | n :: ns, h :: hs => n == h && startsWithList ns hs

/-- `needle in haystack` for Python strings, over character lists. -/
def isSubListOf (needle : List Char) : List Char → Bool
  | [] => needle.isEmpty
  | h :: hs => startsWithList needle (h :: hs) || isSubListOf needle hs

/-- Python `sub in s` for strings. -/
def pyIn (sub s : String) : Bool := isSubListOf sub.data s.data

/-- ASCII lowering of one character; `str.lower()` restricted to the ASCII
fragment, which covers the router's keyword set. -/
def lowerAscii (c : Char) : Char :=
  if 65 ≤ c.toNat ∧ c.toNat ≤ 90 then Char.ofNat (c.toNat + 32) else c

/-- `query.lower()` on the modelled ASCII fragment. -/
def pyLower (s : String) : String := String.mk (s.data.map lowerAscii)

/-- `any(word in query.lower() for word in ["hello", "hi", "help"])`. -/
def keywordHit (query : String) : Bool :=
  ["hello", "hi", "help"].any fun word => pyIn word (pyLower query)

/-- The greeting returned on empty input. -/
def greetingMsg : String := "Hello! Send me CSV data to convert to JSON!"

/-- The help text returned on a greeting/help keyword. -/
def helpMsg : String :=
  "Hello! I\x27m the CSV to JSON Converter!\n\nHow to use:\n1. Paste your CSV data directly\n2. I\x27ll convert it to JSON format\n3. Get clean, formatted results\n\nExample CSV:\nname,age,city\nJohn,25,NYC\nJane,30,LA\n\nJust paste your CSV data and I\x27ll handle the rest!"

/-- The generic please-provide-delimited-data message. -/
def genericCsvMsg : String :=
  "Please paste CSV data with column headers and comma-separated values."

/-- The success report f-string of the tabular branch, formatted from the
analysis and conversion results. -/
def successReport (total_rows : Nat) (columns : List String)
    (json_string : String) (record_count : Nat) : String :=
  "CSV to JSON Conversion Complete!\n\nAnalysis:\n- Rows: " ++ toString total_rows ++
  "\n- Columns: " ++ String.intercalate ", " columns ++
  "\n\nJSON Output:\n```json\n" ++ json_string ++
  "\n```\n\nSuccessfully converted " ++ toString record_count ++ " records!"

/-- `SimpleCSVAgent.__call__(query)` from `agent.py`: empty input greets;
input with both a comma and a newline runs the analyzer then the converter;
a greeting/help keyword returns the help text; anything else the generic
message. -/
def agentCall (query : String) : String :=
  if query = "" then greetingMsg
  else if query.data.contains (Char.ofNat 44) && query.data.contains (Char.ofNat 10) then
    let analysis := analyze_csv_simple query
    if analysis.success then
      let conversion := csv_to_json_simple query
      if conversion.success then
        successReport (analysis.total_rows.getD 0) (analysis.columns.getD [])
          (conversion.json_string.getD "") (conversion.record_count.getD 0)
      else "Conversion failed: " ++ (conversion.error.getD "")
    else "Analysis failed: " ++ (analysis.error.getD "")
  else if keywordHit query then helpMsg
  else genericCsvMsg

/-! ## `promote_loader.py`: the prompt-resolution chain

`PromptGardenLoader.load_prompt` runs three method attempts, each a network
call whose behaviour is opaque; an attempt either raises or yields an
`Optional[str]`.  The chain logic is what is modelled: attempts are outcome
parameters.  Methods 2 and 3 `return` their helper's yield directly, so the
model mirrors that the truthiness check guards only the first attempt. -/

/-- The outcome of one source attempt: it raises, or it yields an
`Optional[str]`. -/
inductive Attempt
  | raises
  | yields (r : Option String)
deriving DecidableEq, Repr

/-- Python truthiness of an `Optional[str]`: `None` and `""` are falsy. -/
def truthy : Option String → Bool
  | none => false
  | some s => s ≠ ""

/-- The registered default instruction for `csv_json_converter`. -/
def csvFallbackPrompt : String :=
  "You are a helpful CSV to JSON converter agent.\n\nYour primary job is to convert CSV data to JSON format.\n\nWhen users provide CSV data:\n1. Use analyze_csv to understand the structure\n2. Convert using csv_to_json tool\n3. Show the JSON output clearly\n4. Report conversion statistics\n\nBe helpful and provide clear JSON output."

/-- The registered default instruction for `test_case_generator`. -/
def testCaseFallbackPrompt : String :=
  "You are an expert Test Case Generator Agent specialized in creating comprehensive test cases from requirements and formatting them for JIRA import.\n\nYour capabilities:\n1. Generate detailed test cases from user requirements\n2. Support multiple test types: functional, UI, API, integration, negative\n3. Format output for direct JIRA import (CSV, JSON, XLSX)\n4. Provide quality assurance and best practices\n\nWhen users provide requirements:\n1. Validate requirements and provide suggestions\n2. Generate comprehensive test cases\n3. Format for JIRA import\n4. Provide clear import instructions\n\nFocus on creating professional, actionable test cases that ensure software quality."

/-- The generic default instruction (the registry's `"default"` entry). -/
def genericDefaultPrompt : String :=
  "You are a helpful AI agent. Assist users with their requests professionally and efficiently."

/-- The `fallback_prompts` registry of `_get_fallback_prompt`. -/
def fallback_prompts : List (String × String) :=
  [("csv_json_converter", csvFallbackPrompt),
   ("test_case_generator", testCaseFallbackPrompt),
   ("default", genericDefaultPrompt)]

/-- `PromptGardenLoader._get_fallback_prompt(prompt_name)`:
`fallback_prompts.get(prompt_name, fallback_prompts["default"])`. -/
def get_fallback (prompt_name : String) : String :=
  (fallback_prompts.lookup prompt_name).getD genericDefaultPrompt

/-- `PromptGardenLoader.load_prompt(prompt_name)` given the outcomes of the
three method attempts.  Attempt 1's yield is bound and returned only when
truthy (`if prompt_template: return prompt_template`), falling through
otherwise; attempts 2 and 3 are `return self._load_via_...(...)`, so their
yields — including `None` and `""` — are returned directly; a raise from any
attempt is swallowed by its `except` and the chain proceeds; after attempt 3
the fallback registry answers.  No exception escapes, so the model is
`Option String`-valued rather than `Except`-valued. -/
def load_prompt (m1 m2 m3 : Attempt) (prompt_name : String) : Option String :=
  let after2 : Option String :=
    match m3 with
    | .yields r => r
    | .raises => some (get_fallback prompt_name)
  let after1 : Option String :=
    match m2 with
    | .yields r => r
    | .raises => after2
  match m1 with
  | .yields r => if truthy r then r else after1
  | .raises => after1

/-- `load_prompt_for_agent(agent_name)` given whether loader construction
succeeded (`vertexai.init` can raise) and the three attempt outcomes.  A
falsy `load_prompt` result is replaced by `_get_fallback_prompt(agent_name)`;
any exception yields the basic fallback string. -/
def load_prompt_for_agent (initOk : Bool) (m1 m2 m3 : Attempt)
    (agent_name : String) : String :=
  if initOk then
    match load_prompt m1 m2 m3 agent_name with
    | some s => if s = "" then get_fallback agent_name else s
    | none => get_fallback agent_name
  else "You are a helpful AI agent."

/-! ## Helpers for stating the claims: JSON decoding and shape views -/

/-- Decode one JSON value back into a cell: a JSON string is a string cell,
`null` is a `None` cell, anything else is not a cell. -/
def jsonToCell : JsonVal → Option (Option String)
  | .str s => some (some s)
  | .null => some none
  | _ => none

/-- Decode object fields back into a record, in order. -/
def decodeCells : List (String × JsonVal) → Option CsvRecord
  | [] => some []
  | (k, v) :: kvs =>
    match jsonToCell v, decodeCells kvs with
    | some c, some cs => some ((k, c) :: cs)
    | _, _ => none

/-- Decode a JSON object back into a record. -/
def jsonToRecord : JsonVal → Option CsvRecord
  | .obj kvs => decodeCells kvs
  | _ => none

/-- Decode a list of JSON values back into records, in order. -/
def decodeRecList : List JsonVal → Option (List CsvRecord)
  | [] => some []
  | v :: vs =>
    match jsonToRecord v, decodeRecList vs with
    | some r, some rs => some (r :: rs)
    | _, _ => none

/-- Decode an array-format payload back into the list of records. -/
def jsonToRecords : JsonVal → Option (List CsvRecord)
  | .arr vs => decodeRecList vs
  | _ => none

/-- The field names of a JSON object (empty for non-objects). -/
def objKeys : JsonVal → List String
  | .obj kvs => kvs.map Prod.fst
  | _ => []

/-- The field values of a JSON object (empty for non-objects). -/
def objValues : JsonVal → List JsonVal
  | .obj kvs => kvs.map Prod.snd
  | _ => []

/-- Rewrap an array-format payload as the object-format payload: element `i`
(0-based) becomes the field `"row_<i+1>"`; non-arrays are left alone. -/
def wrapRowsObject : JsonVal → JsonVal
  | .arr vs => .obj (vs.enum.map fun p => ("row_" ++ toString (p.1 + 1), p.2))
  | v => v


/-- A source attempt that gives the chain no usable signal: it raises, or it
yields a falsy (`None`/empty) value. -/
def attemptNoSignal : Attempt → Bool
  | .raises => true
  | .yields r => !truthy r

/-! ## Theorems -/

/-- The fallback registry never answers with the empty string. -/
theorem get_fallback_ne_empty (name : String) : get_fallback name ≠ "" := by
  by_cases h1 : name = "csv_json_converter"
  · subst h1; decide
  by_cases h2 : name = "test_case_generator"
  · subst h2; decide
  by_cases h3 : name = "default"
  · subst h3; decide
  have e1 : (name == "csv_json_converter") = false := beq_eq_false_iff_ne.mpr h1
  have e2 : (name == "test_case_generator") = false := beq_eq_false_iff_ne.mpr h2
  have e3 : (name == "default") = false := beq_eq_false_iff_ne.mpr h3
  unfold get_fallback fallback_prompts
  simp [List.lookup, e1, e2, e3]
  decide

/-- Claim C1: for every target name and every behavior of the configured
instruction sources (each attempt may raise or yield nothing, and loader
construction itself may raise), instruction resolution through
`load_prompt_for_agent` returns a non-empty instruction string and never
raises (the model is a total `String`-valued function because every exception
path in the source is caught): the caller receives a usable instruction even
when every remote source is unavailable. -/
theorem C1_resolution_always_nonempty (initOk : Bool) (m1 m2 m3 : Attempt)
    (agent_name : String) : load_prompt_for_agent initOk m1 m2 m3 agent_name ≠ "" := by
  cases initOk with
  | false => simp only [load_prompt_for_agent, Bool.false_eq_true, if_false]; decide
  | true =>
    cases h : load_prompt m1 m2 m3 agent_name with
    | none =>
      simp only [load_prompt_for_agent, if_true, h]
      exact get_fallback_ne_empty agent_name
    | some s =>
      by_cases hs : s = ""
      · simp only [load_prompt_for_agent, if_true, h, hs, if_pos rfl]
        exact get_fallback_ne_empty agent_name
      · simp only [load_prompt_for_agent, if_true, h, if_neg hs]
        exact hs

/-- Claim C2 counterexample: take the first two sources to yield nothing and
the third to yield the non-empty string "X".  Contrary to ordered first-match,
`load_prompt` returns `None` — neither "X" (the third source is never
consulted, because the second source's `None` yield is returned directly) nor
the registered default — and the full resolution returns the registered
`csv_json_converter` default, not "X". -/
theorem C2_counterexample :
    load_prompt (.yields none) (.yields none) (.yields (some "X")) "csv_json_converter" = none ∧
    load_prompt_for_agent true (.yields none) (.yields none) (.yields (some "X"))
      "csv_json_converter" = csvFallbackPrompt ∧
    csvFallbackPrompt ≠ "X" :=
  ⟨rfl, rfl, by decide⟩

/-- Claim C2, amended: resolution attempts its sources in order and a raising
source is skipped; a truthy yield from the FIRST source is returned exactly,
with no later source consulted; but the second and third sources' yields are
returned directly without the truthiness check, so a None/empty yield from
them ends the chain without consulting the remaining sources, and
`load_prompt_for_agent` then substitutes the registered default for the
target name.  When the first source gives no signal and the later sources
raise, the registered default is returned by `load_prompt` itself — the
registered `csv_json_converter` default for that name, the generic default
only for names absent from the registry. -/
theorem C2_amended_ordered_resolution :
    (∀ (s : String) (m2 m3 : Attempt) (name : String), s ≠ "" →
      load_prompt (.yields (some s)) m2 m3 name = some s) ∧
    (∀ (m1 : Attempt) (r : Option String) (m3 : Attempt) (name : String),
      attemptNoSignal m1 = true → load_prompt m1 (.yields r) m3 name = r) ∧
    (∀ (m1 : Attempt) (r : Option String) (name : String),
      attemptNoSignal m1 = true → load_prompt m1 .raises (.yields r) name = r) ∧
    (∀ (m1 : Attempt) (name : String), attemptNoSignal m1 = true →
      load_prompt m1 .raises .raises name = some (get_fallback name)) ∧
    (∀ (m1 m2 m3 : Attempt) (name s : String),
      load_prompt m1 m2 m3 name = some s → s ≠ "" →
      load_prompt_for_agent true m1 m2 m3 name = s) ∧
    (∀ (m1 m2 m3 : Attempt) (name : String),
      truthy (load_prompt m1 m2 m3 name) = false →
      load_prompt_for_agent true m1 m2 m3 name = get_fallback name) ∧
    get_fallback "csv_json_converter" = csvFallbackPrompt ∧
    csvFallbackPrompt ≠ genericDefaultPrompt ∧
    (∀ name : String, name ≠ "csv_json_converter" → name ≠ "test_case_generator" →
      name ≠ "default" → get_fallback name = genericDefaultPrompt) := by
  refine ⟨?_, ?_, ?_, ?_, ?_, ?_, rfl, by decide, ?_⟩
  · intro s m2 m3 name hs
    simp [load_prompt, truthy, hs]
  · intro m1 r m3 name hm1
    cases m1 with
    | raises => simp [load_prompt]
    | yields r1 =>
      simp only [attemptNoSignal, Bool.not_eq_true'] at hm1
      simp [load_prompt, hm1]
  · intro m1 r name hm1
    cases m1 with
    | raises => simp [load_prompt]
    | yields r1 =>
      simp only [attemptNoSignal, Bool.not_eq_true'] at hm1
      simp [load_prompt, hm1]
  · intro m1 name hm1
    cases m1 with
    | raises => simp [load_prompt]
    | yields r1 =>
      simp only [attemptNoSignal, Bool.not_eq_true'] at hm1
      simp [load_prompt, hm1]
  · intro m1 m2 m3 name s h hs
    simp [load_prompt_for_agent, h, hs]
  · intro m1 m2 m3 name h
    cases hl : load_prompt m1 m2 m3 name with
    | none => simp [load_prompt_for_agent, hl]
    | some s =>
      rw [hl] at h
      have hs : s = "" := by
        by_contra hne
        simp [truthy, hne] at h
      simp [load_prompt_for_agent, hl, hs]
  · intro name h1 h2 h3
    have e1 : (name == "csv_json_converter") = false := beq_eq_false_iff_ne.mpr h1
    have e2 : (name == "test_case_generator") = false := beq_eq_false_iff_ne.mpr h2
    have e3 : (name == "default") = false := beq_eq_false_iff_ne.mpr h3
    unfold get_fallback fallback_prompts
    simp [List.lookup, e1, e2, e3]

/-- Witness for the amended C2: each component discharged at concrete
attempts and names. -/
theorem C2_amended_witness :
    load_prompt (.yields (some "X")) .raises .raises "n" = some "X" ∧
    load_prompt (.yields none) (.yields (some "")) .raises "n" = some "" ∧
    load_prompt .raises .raises (.yields none) "n" = none ∧
    load_prompt (.yields (some "")) .raises .raises "csv_json_converter" =
      some csvFallbackPrompt ∧
    load_prompt_for_agent true (.yields (some "X")) .raises .raises "n" = "X" ∧
    load_prompt_for_agent true .raises (.yields none) .raises "no_such_agent" =
      get_fallback "no_such_agent" ∧
    get_fallback "no_such_agent" = genericDefaultPrompt := by
  have h := C2_amended_ordered_resolution
  exact ⟨h.1 "X" .raises .raises "n" (by decide),
    h.2.1 (.yields none) (some "") .raises "n" (by decide),
    h.2.2.1 .raises none "n" (by decide),
    h.2.2.2.1 (.yields (some "")) "csv_json_converter" (by decide),
    h.2.2.2.2.1 (.yields (some "X")) .raises .raises "n" "X"
      (h.1 "X" .raises .raises "n" (by decide)) (by decide),
    h.2.2.2.2.2.1 .raises (.yields none) .raises "no_such_agent" (by decide),
    h.2.2.2.2.2.2.2.2 "no_such_agent" (by decide) (by decide) (by decide)⟩

/-- Claim C3: parsing distinguishes empty input from header-only input —
`parse ""` fails with `EmptyInputError` while `parse "a,b\n"` succeeds with a
zero-record table whose columns are `[a, b]`; `analyze` and `convert` (in
every output format) on that zero-record input return `success=false` with
the no-data-found error (message `"No data found in CSV"`) as a value, never
by raising (the modelled functions are total). -/
theorem C3_empty_vs_header_only :
    parse "" = .error .emptyInput ∧
    parse "a,b\n" = .ok ⟨["a", "b"], []⟩ ∧
    (analyze_csv "a,b\n").success = false ∧
    (analyze_csv "a,b\n").error = some "No data found in CSV" ∧
    ∀ fmt : String, (csv_to_json "a,b\n" fmt).success = false ∧
      (csv_to_json "a,b\n" fmt).error = some "No data found in CSV" :=
  ⟨rfl, rfl, rfl, rfl, fun _ => ⟨rfl, rfl⟩⟩

/-- A cell survives the JSON round trip. -/
theorem jsonToCell_cellJson (c : Option String) :
    jsonToCell (match c with | some s => .str s | none => .null) = some c := by
  cases c <;> rfl

/-- A record survives the JSON round trip. -/
theorem jsonToRecord_recJson (r : CsvRecord) : jsonToRecord (recJson r) = some r := by
  induction r with
  | nil => rfl
  | cons kv tl ih =>
    simp only [recJson, jsonToRecord, List.map_cons, decodeCells, jsonToCell_cellJson]
    simp only [recJson, jsonToRecord] at ih
    rw [ih]

/-- A record list survives the JSON round trip. -/
theorem decodeRecList_map_recJson (rows : List CsvRecord) :
    decodeRecList (rows.map recJson) = some rows := by
  induction rows with
  | nil => rfl
  | cons r tl ih =>
    simp only [List.map_cons, decodeRecList, jsonToRecord_recJson, ih]

/-- The keys of a serialized record are the record's keys. -/
theorem objKeys_recJson (r : CsvRecord) : objKeys (recJson r) = r.map Prod.fst := by
  simp [objKeys, recJson, List.map_map]

/-- Claim C4: for every table with n ≥ 1 records (records carrying the
header's keys and string cells, the data-model invariants), converting in
"array" format succeeds; the payload lists the records in input row order
(it is exactly the input records serialized in order), each serialized
record's fields are in header order, every cell value is still a JSON string
(never a number), and decoding the payload JSON back into records recovers
the original records mapping-for-mapping and field-for-field. -/
theorem C4_array_format_roundtrip (header : List String) (rows : List CsvRecord)
    (hne : rows ≠ [])
    (hkeys : ∀ r ∈ rows, r.map Prod.fst = header)
    (hstr : ∀ r ∈ rows, ∀ kv ∈ r, kv.2.isSome = true) :
    (csv_to_json_rows rows "array").success = true ∧
    (csv_to_json_rows rows "array").json_output = some (.arr (rows.map recJson)) ∧
    (∀ r ∈ rows, objKeys (recJson r) = header) ∧
    (∀ r ∈ rows, ∀ v ∈ objValues (recJson r), ∃ s, v = .str s) ∧
    jsonToRecords (.arr (rows.map recJson)) = some rows := by
  refine ⟨?_, ?_, ?_, ?_, ?_⟩
  · simp [csv_to_json_rows, hne]
  · simp [csv_to_json_rows, hne]
  · intro r hr
    rw [objKeys_recJson]
    exact hkeys r hr
  · intro r hr v hv
    simp only [objValues, recJson, List.map_map, List.mem_map, Function.comp] at hv
    obtain ⟨kv, hkv, hveq⟩ := hv
    have := hstr r hr kv hkv
    cases hc : kv.2 with
    | some s =>
      refine ⟨s, ?_⟩
      rw [← hveq, hc]
    | none => rw [hc] at this; simp at this
  · simp only [jsonToRecords]
    exact decodeRecList_map_recJson rows

/-- Witness for C4 at a concrete two-record table. -/
theorem C4_witness :
    (csv_to_json_rows
        [[("name", some "John"), ("age", some "25")],
         [("name", some "Jane"), ("age", some "30")]] "array").success = true ∧
    (csv_to_json_rows
        [[("name", some "John"), ("age", some "25")],
         [("name", some "Jane"), ("age", some "30")]] "array").json_output =
      some (.arr ([[("name", some "John"), ("age", some "25")],
                   [("name", some "Jane"), ("age", some "30")]].map recJson)) ∧
    (∀ r ∈ [[("name", some "John"), ("age", some "25")],
            [("name", some "Jane"), ("age", some "30")]],
      objKeys (recJson r) = ["name", "age"]) ∧
    (∀ r ∈ [[("name", some "John"), ("age", some "25")],
            [("name", some "Jane"), ("age", some "30")]],
      ∀ v ∈ objValues (recJson r), ∃ s, v = .str s) ∧
    jsonToRecords (.arr ([[("name", some "John"), ("age", some "25")],
                          [("name", some "Jane"), ("age", some "30")]].map recJson)) =
      some [[("name", some "John"), ("age", some "25")],
            [("name", some "Jane"), ("age", some "30")]] :=
  C4_array_format_roundtrip ["name", "age"]
    [[("name", some "John"), ("age", some "25")],
     [("name", some "Jane"), ("age", some "30")]]
    (by decide) (by decide) (by decide)

/-- Claim C5: for every table, object-format and array-format conversion
agree on success, record_count, columns and error, and the object payload is
exactly the array payload rewrapped: element i becomes the field
"row_<i+1>", keys in row order — the two payloads contain the same records,
only the wrapping shape differs. -/
theorem C5_object_array_same_records (rows : List CsvRecord) :
    (csv_to_json_rows rows "object").success = (csv_to_json_rows rows "array").success ∧
    (csv_to_json_rows rows "object").record_count =
      (csv_to_json_rows rows "array").record_count ∧
    (csv_to_json_rows rows "object").columns = (csv_to_json_rows rows "array").columns ∧
    (csv_to_json_rows rows "object").error = (csv_to_json_rows rows "array").error ∧
    (csv_to_json_rows rows "object").json_output =
      ((csv_to_json_rows rows "array").json_output).map wrapRowsObject := by
  by_cases h : rows = []
  · subst h; exact ⟨rfl, rfl, rfl, rfl, rfl⟩
  · have e1 : (csv_to_json_rows rows "object").json_output =
        some (.obj (rows.enum.map fun p => ("row_" ++ toString (p.1 + 1), recJson p.2))) := by
      simp [csv_to_json_rows, if_neg h]
    have e2 : (csv_to_json_rows rows "array").json_output =
        some (.arr (rows.map recJson)) := by
      simp [csv_to_json_rows, if_neg h]
    refine ⟨?_, ?_, ?_, ?_, ?_⟩
    · simp [csv_to_json_rows, if_neg h]
    · simp [csv_to_json_rows, if_neg h]
    · simp [csv_to_json_rows, if_neg h]
    · simp [csv_to_json_rows, if_neg h]
    · rw [e1, e2]
      simp [wrapRowsObject, List.enum_map, List.map_map, Function.comp, Prod.map]

/-- Claim C6: for every table with at least one record whose keys are the
header (the data-model invariant), analyze returns success=true,
total_rows = the record count, total_columns = the header length,
columns = the header in original order, first_row = the first record, and no
error. -/
theorem C6_analyze_nonempty (header : List String) (r : CsvRecord) (rs : List CsvRecord)
    (hr : r.map Prod.fst = header) :
    (analyze_csv_rows (r :: rs)).success = true ∧
    (analyze_csv_rows (r :: rs)).total_rows = some (rs.length + 1) ∧
    (analyze_csv_rows (r :: rs)).total_columns = some header.length ∧
    (analyze_csv_rows (r :: rs)).columns = some header ∧
    (analyze_csv_rows (r :: rs)).first_row = some r ∧
    (analyze_csv_rows (r :: rs)).error = none := by
  simp [analyze_csv_rows, firstRecordKeys, hr]

/-- Witness for C6 at a concrete one-record table. -/
theorem C6_witness :
    (analyze_csv_rows [[("a", some "1"), ("b", some "2")]]).success = true ∧
    (analyze_csv_rows [[("a", some "1"), ("b", some "2")]]).total_rows = some 1 ∧
    (analyze_csv_rows [[("a", some "1"), ("b", some "2")]]).total_columns = some 2 ∧
    (analyze_csv_rows [[("a", some "1"), ("b", some "2")]]).columns = some ["a", "b"] ∧
    (analyze_csv_rows [[("a", some "1"), ("b", some "2")]]).first_row =
      some [("a", some "1"), ("b", some "2")] ∧
    (analyze_csv_rows [[("a", some "1"), ("b", some "2")]]).error = none := by
  have h := C6_analyze_nonempty ["a", "b"] [("a", some "1"), ("b", some "2")] [] (by decide)
  exact h

/-- Claim C7 counterexample: on the header-only input "a,b\n" conversion
fails, and the failure dict contains no `columns` key at all, although the
converted table's header is `["a","b"]` — so not every ConversionResult
contains columns reflecting the converted table. -/
theorem C7_counterexample :
    (csv_to_json "a,b\n" "array").success = false ∧
    (csv_to_json "a,b\n" "array").columns = none ∧
    fieldnamesOf "a,b\n" = some ["a", "b"] :=
  ⟨rfl, rfl, rfl⟩

/-- Claim C7, amended: for every input and output format, exactly one of
payload/error is present (the payload exactly when success is true, the
error exactly when success is false); on success, record_count and columns
reflect the converted table (the parsed record count and the first record's
keys, i.e. the header) independent of format, while on failure record_count
is 0 — consistent with the zero-record table — but the columns key is
absent, not the table's header. -/
theorem C7_amended_result_shape (content fmt : String) :
    ((csv_to_json content fmt).json_output).isSome = (csv_to_json content fmt).success ∧
    ((csv_to_json content fmt).error).isSome = !(csv_to_json content fmt).success ∧
    (csv_to_json content fmt).record_count =
      (if (csv_to_json content fmt).success = true then (parsedRecords content).length else 0) ∧
    (csv_to_json content fmt).columns =
      (if (csv_to_json content fmt).success = true then
        some (firstRecordKeys (parsedRecords content)) else none) := by
  unfold csv_to_json parsedRecords
  cases hq : csvRows content with
  | error e => simp
  | ok rows =>
    unfold csv_to_json_rows
    by_cases hrows : rows = []
    · simp [hrows]
    · simp [hrows]

/-- The two reduced tools parse the same input with the same csv settings,
so their success flags always agree: the router's "Conversion failed"
report, though present in the dispatch, can never fire after a successful
analysis. -/
theorem simple_tools_success_agree (q : String) :
    (csv_to_json_simple q).success = (analyze_csv_simple q).success := by
  cases hq : csvRows q <;> simp [csv_to_json_simple, analyze_csv_simple, hq]

/-- Claim C8: the router's classification is applied in order — empty input
returns the greeting with no analysis attempted; input with both a comma and
a newline is the tabular branch, which runs the analyzer first and, when the
analysis fails (the csv reader raises, e.g. on a bare carriage return inside
an unquoted field), reports "Analysis failed: " with the analysis error and
stops without reporting any conversion output; when the analysis succeeds it
runs the converter and reports the success summary or the conversion error —
and since both tools parse the same input identically their success flags
agree (second conjunct), so after a successful analysis only the success
summary can be reported; otherwise a case-insensitive greeting/help keyword
substring returns the help text; any other input returns the generic
please-provide-delimited-data message. -/
theorem C8_router_classification :
    agentCall "" = greetingMsg ∧
    (∀ q : String, (csv_to_json_simple q).success = (analyze_csv_simple q).success) ∧
    (∀ q : String, q ≠ "" → q.data.contains (Char.ofNat 44) = true →
      q.data.contains (Char.ofNat 10) = true → (analyze_csv_simple q).success = false →
      agentCall q = "Analysis failed: " ++ ((analyze_csv_simple q).error.getD "")) ∧
    (∀ q : String, q ≠ "" → q.data.contains (Char.ofNat 44) = true →
      q.data.contains (Char.ofNat 10) = true → (analyze_csv_simple q).success = true →
      agentCall q = successReport ((analyze_csv_simple q).total_rows.getD 0)
        ((analyze_csv_simple q).columns.getD []) ((csv_to_json_simple q).json_string.getD "")
        ((csv_to_json_simple q).record_count.getD 0)) ∧
    (∀ q : String, q ≠ "" →
      (q.data.contains (Char.ofNat 44) && q.data.contains (Char.ofNat 10)) = false →
      keywordHit q = true → agentCall q = helpMsg) ∧
    (∀ q : String, q ≠ "" →
      (q.data.contains (Char.ofNat 44) && q.data.contains (Char.ofNat 10)) = false →
      keywordHit q = false → agentCall q = genericCsvMsg) := by
  refine ⟨rfl, simple_tools_success_agree, ?_, ?_, ?_, ?_⟩
  · intro q hq hc hn hfail
    have hc' : Char.ofNat 44 ∈ q.data := by simpa using hc
    have hn' : Char.ofNat 10 ∈ q.data := by simpa using hn
    simp [agentCall, hq, hc', hn', hfail]
  · intro q hq hc hn hsucc
    have hc' : Char.ofNat 44 ∈ q.data := by simpa using hc
    have hn' : Char.ofNat 10 ∈ q.data := by simpa using hn
    have hconv : (csv_to_json_simple q).success = true :=
      (simple_tools_success_agree q).trans hsucc
    simp [agentCall, hq, hc', hn', hsucc, hconv]
  · intro q hq hcn hk
    have hcn' : Char.ofNat 44 ∉ q.data ∨ Char.ofNat 10 ∉ q.data := by
      rcases Bool.and_eq_false_iff.mp hcn with h | h
      · exact Or.inl (by simpa using h)
      · exact Or.inr (by simpa using h)
    simp only [agentCall, if_neg hq]
    rw [if_neg ?_, if_pos hk]
    intro hboth
    rw [Bool.and_eq_true] at hboth
    rcases hcn' with h | h
    · exact h (by simpa using hboth.1)
    · exact h (by simpa using hboth.2)
  · intro q hq hcn hk
    have hcn' : Char.ofNat 44 ∉ q.data ∨ Char.ofNat 10 ∉ q.data := by
      rcases Bool.and_eq_false_iff.mp hcn with h | h
      · exact Or.inl (by simpa using h)
      · exact Or.inr (by simpa using h)
    simp only [agentCall, if_neg hq]
    rw [if_neg ?_, if_neg (by simp [hk])]
    intro hboth
    rw [Bool.and_eq_true] at hboth
    rcases hcn' with h | h
    · exact h (by simpa using hboth.1)
    · exact h (by simpa using hboth.2)

/-- Witness for C8: all four routes exercised, including the analysis-error
report on "a,b\nx\ry,z", whose bare carriage return makes the csv reader
raise. -/
theorem C8_witness :
    agentCall "" = greetingMsg ∧
    agentCall "a,b\nx\ry,z" =
      "Analysis failed: " ++ ((analyze_csv_simple "a,b\nx\ry,z").error.getD "") ∧
    agentCall "a,b\n1,2" = successReport ((analyze_csv_simple "a,b\n1,2").total_rows.getD 0)
      ((analyze_csv_simple "a,b\n1,2").columns.getD [])
      ((csv_to_json_simple "a,b\n1,2").json_string.getD "")
      ((csv_to_json_simple "a,b\n1,2").record_count.getD 0) ∧
    agentCall "hello" = helpMsg ∧
    agentCall "xyz" = genericCsvMsg := by
  have h := C8_router_classification
  exact ⟨h.1,
    h.2.2.1 "a,b\nx\ry,z" (by decide) (by decide) (by decide) (by decide),
    h.2.2.2.1 "a,b\n1,2" (by decide) (by decide) (by decide) (by decide),
    h.2.2.2.2.1 "hello" (by decide) (by decide) (by decide),
    h.2.2.2.2.2 "xyz" (by decide) (by decide) (by decide)⟩

/-- Claim C9 counterexample: on the header-only input "a,b\n" (zero parsed
records) the reduced converter succeeds while the rich converter fails — the
variants do not return the same success flag on every input, and in
particular the reduced variants do not reproduce the no-data-found
failure. -/
theorem C9_counterexample :
    (csv_to_json_simple "a,b\n").success = true ∧
    (csv_to_json "a,b\n" "array").success = false :=
  ⟨rfl, rfl⟩

/-- Claim C9, amended: on every input with at least one parsed record the
reduced variants agree with the rich variants on their shared fields —
csv_to_json_simple matches csv_to_json in "array" format on success,
json_output, json_string, record_count and columns, and analyze_csv_simple
matches analyze_csv on success, total_rows and columns (the reduced analyzer
has no total_columns or first_row field at all).  On zero-record input the
reduced variants return success=true while the rich ones fail with "No data
found in CSV". -/
theorem C9_amended_agree_on_nonempty (q : String) (h : parsedRecords q ≠ []) :
    (csv_to_json_simple q).success = (csv_to_json q "array").success ∧
    (csv_to_json_simple q).json_output = (csv_to_json q "array").json_output ∧
    (csv_to_json_simple q).json_string = (csv_to_json q "array").json_string ∧
    (csv_to_json_simple q).record_count = some (csv_to_json q "array").record_count ∧
    (csv_to_json_simple q).columns = (csv_to_json q "array").columns ∧
    (analyze_csv_simple q).success = (analyze_csv q).success ∧
    (analyze_csv_simple q).total_rows = (analyze_csv q).total_rows ∧
    (analyze_csv_simple q).columns = (analyze_csv q).columns := by
  cases hq : csvRows q with
  | error e => exact absurd (by simp [parsedRecords, hq]) h
  | ok rows =>
    have hne : rows ≠ [] := by
      intro hcontra
      exact h (by simp [parsedRecords, hq, hcontra])
    unfold csv_to_json_simple csv_to_json analyze_csv_simple analyze_csv
    rw [hq]
    unfold csv_to_json_rows analyze_csv_rows
    simp [hne]

/-- Witness for the amended C9 at a one-record input. -/
theorem C9_amended_witness :
    (csv_to_json_simple "a,b\n1,2").success = (csv_to_json "a,b\n1,2" "array").success ∧
    (csv_to_json_simple "a,b\n1,2").json_output =
      (csv_to_json "a,b\n1,2" "array").json_output ∧
    (csv_to_json_simple "a,b\n1,2").json_string =
      (csv_to_json "a,b\n1,2" "array").json_string ∧
    (csv_to_json_simple "a,b\n1,2").record_count =
      some (csv_to_json "a,b\n1,2" "array").record_count ∧
    (csv_to_json_simple "a,b\n1,2").columns = (csv_to_json "a,b\n1,2" "array").columns ∧
    (analyze_csv_simple "a,b\n1,2").success = (analyze_csv "a,b\n1,2").success ∧
    (analyze_csv_simple "a,b\n1,2").total_rows = (analyze_csv "a,b\n1,2").total_rows ∧
    (analyze_csv_simple "a,b\n1,2").columns = (analyze_csv "a,b\n1,2").columns :=
  C9_amended_agree_on_nonempty "a,b\n1,2" (by decide)

/-- Claim C10 counterexample: with the unrecognized flag "banana" the result
is not identical to the "array" result — the returned dict echoes the flag
in its `format` field. -/
theorem C10_counterexample :
    (csv_to_json "a,b\n1,2" "banana").format = some "banana" ∧
    (csv_to_json "a,b\n1,2" "array").format = some "array" ∧
    csv_to_json "a,b\n1,2" "banana" ≠ csv_to_json "a,b\n1,2" "array" := by
  refine ⟨rfl, rfl, fun hcontra => ?_⟩
  have h2 := congrArg ConvResult.format hcontra
  rw [show (csv_to_json "a,b\n1,2" "banana").format = some "banana" from rfl,
      show (csv_to_json "a,b\n1,2" "array").format = some "array" from rfl] at h2
  exact absurd h2 (by decide)

/-- Claim C10, amended: for every output_format other than "object" the
conversion behaves as the "array" format in every field except the echoed
`format` field, which reports the flag verbatim (and is absent on failure):
an unrecognized flag never by itself produces an error or a failed
result. -/
theorem C10_amended_nonobject_like_array (content fmt : String) (h : fmt ≠ "object") :
    (csv_to_json content fmt).success = (csv_to_json content "array").success ∧
    (csv_to_json content fmt).error = (csv_to_json content "array").error ∧
    (csv_to_json content fmt).json_output = (csv_to_json content "array").json_output ∧
    (csv_to_json content fmt).json_string = (csv_to_json content "array").json_string ∧
    (csv_to_json content fmt).record_count = (csv_to_json content "array").record_count ∧
    (csv_to_json content fmt).columns = (csv_to_json content "array").columns ∧
    (csv_to_json content fmt).format =
      ((csv_to_json content "array").format).map (fun _ => fmt) := by
  unfold csv_to_json
  cases hq : csvRows content with
  | error e => exact ⟨rfl, rfl, rfl, rfl, rfl, rfl, rfl⟩
  | ok rows =>
    unfold csv_to_json_rows
    by_cases hrows : rows = []
    · simp [hrows]
    · simp [hrows, if_neg h]

/-- Witness for the amended C10 at a concrete input and flag. -/
theorem C10_amended_witness :
    (csv_to_json "a,b\n1,2" "banana").success = (csv_to_json "a,b\n1,2" "array").success ∧
    (csv_to_json "a,b\n1,2" "banana").error = (csv_to_json "a,b\n1,2" "array").error ∧
    (csv_to_json "a,b\n1,2" "banana").json_output =
      (csv_to_json "a,b\n1,2" "array").json_output ∧
    (csv_to_json "a,b\n1,2" "banana").json_string =
      (csv_to_json "a,b\n1,2" "array").json_string ∧
    (csv_to_json "a,b\n1,2" "banana").record_count =
      (csv_to_json "a,b\n1,2" "array").record_count ∧
    (csv_to_json "a,b\n1,2" "banana").columns = (csv_to_json "a,b\n1,2" "array").columns ∧
    (csv_to_json "a,b\n1,2" "banana").format =
      ((csv_to_json "a,b\n1,2" "array").format).map (fun _ => "banana") :=
  C10_amended_nonobject_like_array "a,b\n1,2" "banana" (by decide)
